import Mathlib

/-!
Shallow embedding of the kysely-codegen core pipeline: the metadata model,
table matcher, type mapper, enum collection, name transformer, serializer and
verify engine, together with theorems settling the frozen claims about them.

The repository snapshot under verification ships only `src/cli/cli.test.ts`
and the introspector export index; the implementation modules they exercise
(serializer, matcher, enum collection, type mapper, CLI option parsing) are
absent, so those parts are modelled from the specification (and, for the CLI
deprecation contract, from the expectations recorded in the test file), as
marked on each definition.
-/

namespace KCG

/-! ### Verify engine -/

/-- Drops every leading newline character of a character list.  Applied to a
reversed character list this removes a trailing-newline run. -/
def dropNL : List Char → List Char
  | [] => []
  | c :: cs => if c = '\n' then dropNL cs else c :: cs

/-- Modelled from the spec: the normalization both sides of a verify
comparison pass through, namely the trailing-newline trim of section 4.7
(the serializer and verify engine are absent from the snapshot). -/
def trimTrailingNewlines (s : String) : String :=
  String.mk (dropNL s.data.reverse).reverse

/-- Result of a verify run: the generated text matches the existing file, or
it does not. -/
inductive VerifyResult
  | matched
  | mismatch
deriving DecidableEq

/-- Modelled from the spec: `verify(generatedText, existingFileText)` of
section 4.7 — a pure string comparison after both sides pass through the
identical trailing-newline normalization (the verify engine is absent from
the snapshot). -/
def verify (generatedText existingFileText : String) : VerifyResult :=
  if trimTrailingNewlines generatedText = trimTrailingNewlines existingFileText then
    .matched
  else
    .mismatch

/-! ### Table matcher -/

/-- Glob matching over character lists: a `*` matches any (possibly empty)
character sequence, every other pattern character matches itself.  The star
case tries every suffix of the remaining text. -/
def globMatch : List Char → List Char → Bool
  | [], s => s.isEmpty
  | '*' :: ps, s => s.tails.any (fun t => globMatch ps t)
  | _ :: _, [] => false
  | p :: ps, c :: cs => p == c && globMatch ps cs

/-- Configuration consumed by the table matcher: optional include and exclude
patterns over the schema-qualified name plus the optional default-schema
list. -/
structure MatchConfig where
  includePattern : Option String
  excludePattern : Option String
  defaultSchemas : Option (List String)
deriving DecidableEq

/-- Schema-qualified name `schema.table` the matcher patterns run against. -/
def qualifiedName (schema table : String) : String :=
  schema ++ "." ++ table

/-- Include/default layer of the matcher: with an include pattern the table
is accepted exactly when the pattern matches; otherwise membership of the
schema in the default-schema list governs, and with no list configured every
schema is accepted. -/
def matchesBase (cfg : MatchConfig) (schema table : String) : Bool :=
  match cfg.includePattern with
  | some p => globMatch p.data (qualifiedName schema table).data
  | none =>
    match cfg.defaultSchemas with
    | some ds => ds.contains schema
    | none => true

/-- Modelled from the spec: `matches(schema, table)` of section 4.1 (the
table matcher module is absent from the snapshot; `matches` is a Lean
keyword, hence the name).  A configured exclude pattern that matches the
schema-qualified name rejects the table regardless of the include rules;
otherwise the include/default layer decides. -/
def tableMatches (cfg : MatchConfig) (schema table : String) : Bool :=
  match cfg.excludePattern with
  | some p =>
    if globMatch p.data (qualifiedName schema table).data then false
    else matchesBase cfg schema table
  | none => matchesBase cfg schema table

/-! ### Enum collection -/

/-- Fatal inconsistency raised when one enum identity is registered twice
with differing label sequences. -/
structure SchemaInconsistencyError where
  identity : String
deriving DecidableEq

/-- Registry of enum definitions: identities paired with their ordered label
sequences, kept in first-registration order. -/
structure EnumCollection where
  entries : List (String × List String)
deriving DecidableEq

/-- Modelled from the spec: `register(identity, labels)` of section 4.3 (the
enum collection module is absent from the snapshot).  Re-registration with
identical labels returns the existing handle and leaves the collection
unchanged; re-registration with different labels is a fatal
`SchemaInconsistencyError`; a fresh identity is appended. -/
def EnumCollection.register (c : EnumCollection) (identity : String)
    (labels : List String) :
    Except SchemaInconsistencyError (String × EnumCollection) :=
  match c.entries.find? (fun e => e.1 == identity) with
  | some e => if e.2 = labels then .ok (e.1, c) else .error ⟨identity⟩
  | none => .ok (identity, ⟨c.entries ++ [(identity, labels)]⟩)

/-! ### Type mapper -/

/-- Canonical scalar kinds of the data model (section 3). -/
inductive ScalarKind
  | string
  | number
  | boolean
  | dateAsString
  | dateAsTimestamp
  | json
  | buffer
deriving DecidableEq

/-- Canonical column data type: a scalar kind, a handle into the enum
collection, an unknown raw type, an array, or a union of alternatives. -/
inductive DataType
  | scalar (kind : ScalarKind)
  | enumRef (handle : String)
  | unknown (rawName : String)
  | arrayOf (element : DataType)
  | union (left right : DataType)
deriving DecidableEq

/-- Mode governing how numeric catalog columns are typed. -/
inductive NumericParser
  | number
  | string
  | numberOrString
deriving DecidableEq

/-- Mode governing how date/time catalog columns are typed. -/
inductive DateParser
  | string
  | timestamp
deriving DecidableEq

/-- Supported dialect identifiers (the subset the claims exercise). -/
inductive DialectId
  | postgres
  | mysql
deriving DecidableEq

/-- Per-column context the type mapper consults: parser modes plus the enum
identities already known to the enum collection. -/
structure ColumnContext where
  numericParser : NumericParser
  dateParser : DateParser
  enums : List String
deriving DecidableEq

/-- Wide-precision numeric catalog type names (arbitrary-precision families
whose precision can exceed the safe-integer range). -/
def numericFamily : List String :=
  ["numeric", "decimal", "bignumeric"]

/-- Date/time catalog type names governed by the date-parser mode. -/
def dateFamily : List String :=
  ["date", "timestamp", "timestamptz"]

/-- Dialect scalar table for postgres: raw catalog type names mapped to
scalar kinds (integer, character, boolean, bytea, json and uuid families). -/
def postgresScalarTable : List (String × ScalarKind) :=
  [("int2", .number), ("int4", .number), ("int8", .number),
   ("float4", .number), ("float8", .number), ("serial", .number),
   ("text", .string), ("varchar", .string), ("char", .string),
   ("uuid", .string), ("bool", .boolean), ("bytea", .buffer),
   ("json", .json), ("jsonb", .json)]

/-- Dialect scalar table for mysql. -/
def mysqlScalarTable : List (String × ScalarKind) :=
  [("int", .number), ("bigint", .number), ("smallint", .number),
   ("tinyint", .number), ("double", .number), ("float", .number),
   ("text", .string), ("varchar", .string), ("char", .string),
   ("json", .json), ("blob", .buffer)]

/-- Scalar table selected by dialect identifier. -/
def scalarTableFor : DialectId → List (String × ScalarKind)
  | .postgres => postgresScalarTable
  | .mysql => mysqlScalarTable

/-- Modelled from the spec: `map(dialectId, rawTypeName, columnContext)` of
section 4.2 (the type mapper module is absent from the snapshot).  Enum raw
types resolve to `enumRef`; wide-precision numeric types follow the
numeric-parser mode; date/time types follow the date-parser mode; other raw
names are looked up in the dialect scalar table and degrade to
`unknown(rawName)` when unmapped. -/
def typeMap (dialect : DialectId) (rawTypeName : String)
    (ctx : ColumnContext) : DataType :=
  if ctx.enums.contains rawTypeName then
    .enumRef rawTypeName
  else if numericFamily.contains rawTypeName then
    match ctx.numericParser with
    | .number => .scalar .number
    | .string => .scalar .string
    | .numberOrString => .union (.scalar .number) (.scalar .string)
  else if dateFamily.contains rawTypeName then
    match ctx.dateParser with
    | .string => .scalar .dateAsString
    | .timestamp => .scalar .dateAsTimestamp
  else
    match (scalarTableFor dialect).lookup rawTypeName with
    | some kind => .scalar kind
    | none => .unknown rawTypeName

/-! ### String helpers

Executable character-list primitives used instead of the core `String`
functions, whose well-founded recursion does not reduce inside the kernel. -/

/-- Splits a character list at every occurrence of a separator character. -/
def wordsBy (sep : Char) : List Char → List (List Char)
  | [] => [[]]
  | c :: cs =>
    if c = sep then [] :: wordsBy sep cs
    else
      match wordsBy sep cs with
      | [] => [[c]]
      | w :: ws => (c :: w) :: ws

/-- Boolean prefix test over character lists. -/
def isPrefixOfList : List Char → List Char → Bool
  | [], _ => true
  | _ :: _, [] => false
  | a :: as, b :: bs => a == b && isPrefixOfList as bs

/-- Whether `s` ends with `suffix`. -/
def strEndsWith (s suffix : String) : Bool :=
  isPrefixOfList suffix.data.reverse s.data.reverse

/-- Whether `s` starts with `pre`. -/
def strStartsWith (s pre : String) : Bool :=
  isPrefixOfList pre.data s.data

/-- Drops the final `n` characters of a string. -/
def dropRightStr (s : String) (n : Nat) : String :=
  String.mk (s.data.reverse.drop n).reverse

/-- Lowercases every character of a string. -/
def toLowerStr (s : String) : String :=
  String.mk (s.data.map Char.toLower)

/-- Concatenation of a list of strings. -/
def strConcat (l : List String) : String :=
  String.mk (l.map String.data).flatten

/-- Concatenation of a list of strings with a separator between elements. -/
def intercalateStr (sep : String) (l : List String) : String :=
  String.mk (List.intersperse sep.data (l.map String.data)).flatten

/-! ### Name transformer -/

/-- Capitalizes the first character of a word. -/
def capitalizeW : List Char → List Char
  | [] => []
  | c :: cs => c.toUpper :: cs

/-- Modelled from the spec: camel-case conversion of section 4.4 — a
delimiter-separated catalog name becomes camel case, the first word kept
as-is and each later word capitalized. -/
def toCamelCase (s : String) : String :=
  match wordsBy '_' s.data with
  | [] => s
  | w :: ws => String.mk (w ++ (ws.map capitalizeW).flatten)

/-- Modelled from the spec: the capitalized rendering used for
table/interface names and enum identifiers, independent of the camel-case
flag. -/
def toPascalCase (s : String) : String :=
  String.mk ((wordsBy '_' s.data).map capitalizeW).flatten

/-- Pascal-case enum member name derived from a label under the pascal-case
runtime-enum style: the label is lowercased and then pascal-cased. -/
def enumMemberName (label : String) : String :=
  toPascalCase (toLowerStr label)

/-- Modelled from the spec: one `SingularizationRule` of section 3 — a match
pattern with capture groups and a replacement template, embedded as the
function from a name to the replaced name when the pattern matches. -/
structure SingularizationRule where
  apply : String → Option String

/-- Modelled from the spec: the singularization engine of section 4.4 —
rules are tested in declared order against the full name, the first match's
replacement wins, and a name matching no rule is returned unchanged. -/
def singularize (rules : List SingularizationRule) (name : String) : String :=
  match rules with
  | [] => name
  | r :: rs =>
    match r.apply name with
    | some result => result
    | none => singularize rs name

/-- The rule `/s$/ -> ""`: a name ending in `s` loses that final letter. -/
def ruleDropS : SingularizationRule :=
  ⟨fun name =>
    if strEndsWith name "s" then some (dropRightStr name 1) else none⟩

/-- The rule `/(bacch)(?:us|i)$/i -> "$1us"` of the CLI test config: a name
ending (case-insensitively) in `bacchus` or `bacchi` keeps its prefix and
the captured `bacch` characters and gains the suffix `us`. -/
def ruleBacchus : SingularizationRule :=
  ⟨fun name =>
    if strEndsWith (toLowerStr name) "bacchus" then
      some (dropRightStr name 2 ++ "us")
    else if strEndsWith (toLowerStr name) "bacchi" then
      some (dropRightStr name 1 ++ "us")
    else none⟩

/-! ### Metadata model -/

/-- Column of the canonical metadata model: name, canonical data type and the
flags affecting nullability and the generated-marker wrapping. -/
structure ColumnMetadata where
  name : String
  dataType : DataType
  isNullable : Bool
  isAutoIncrementing : Bool
  hasDefaultValue : Bool

/-- Table of the canonical metadata model: schema, name and the ordered
column sequence. -/
structure TableMetadata where
  schema : String
  name : String
  columns : List ColumnMetadata

/-- Canonical in-memory schema representation: the ordered table sequence
plus the enum collection. -/
structure DatabaseMetadata where
  tables : List TableMetadata
  enums : EnumCollection

/-- Option bundle consumed by the serializer: the camel-case flag and the
ordered singularization rule list (an empty list disables
singularization). -/
structure SerializeOptions where
  camelCase : Bool
  singularizationRules : List SingularizationRule

/-! ### Serializer -/

/-- Declaration-text rendering of a canonical data type. -/
def renderDataType : DataType → String
  | .scalar .string => "string"
  | .scalar .number => "number"
  | .scalar .boolean => "boolean"
  | .scalar .dateAsString => "string"
  | .scalar .dateAsTimestamp => "Timestamp"
  | .scalar .json => "Json"
  | .scalar .buffer => "Buffer"
  | .enumRef handle => toPascalCase handle
  | .unknown _ => "unknown"
  | .arrayOf element => renderDataType element ++ "[]"
  | .union left right => renderDataType left ++ " | " ++ renderDataType right

/-- Whether a column is wrapped in the generated marker type: catalog-declared
defaults, auto-incrementing identity columns included. -/
def isGeneratedColumn (c : ColumnMetadata) : Bool :=
  c.isAutoIncrementing || c.hasDefaultValue

/-- Rendered field type of one column: nullable columns gain a null union
member and generated columns are wrapped in `Generated<...>`. -/
def renderFieldType (c : ColumnMetadata) : String :=
  let base := renderDataType c.dataType
  let withNull := if c.isNullable then base ++ " | null" else base
  if isGeneratedColumn c then "Generated<" ++ withNull ++ ">" else withNull

/-- Rendered field name of one column: camel-cased exactly when the flag is
set. -/
def renderFieldName (opts : SerializeOptions) (c : ColumnMetadata) : String :=
  if opts.camelCase then toCamelCase c.name else c.name

/-- Interface name derived from a table name: singularized through the rule
list, then rendered in capitalized form. -/
def interfaceName (opts : SerializeOptions) (t : TableMetadata) : String :=
  toPascalCase (singularize opts.singularizationRules t.name)

/-- Rendered member line of a runtime enum under the pascal-case style. -/
def renderEnumMember (label : String) : String :=
  "  " ++ enumMemberName label ++ " = \"" ++ label ++ "\",\n"

/-- Rendered runtime-enum declaration of one enum collection entry. -/
def renderEnumDecl (entry : String × List String) : String :=
  "export enum " ++ toPascalCase entry.1 ++ " \x7b\n"
    ++ strConcat (entry.2.map renderEnumMember) ++ "\x7d\n"

/-- Boolean lexicographic order on character lists, by code point. -/
def charListLe : List Char → List Char → Bool
  | [], _ => true
  | _ :: _, [] => false
  | a :: as, b :: bs =>
    Nat.blt a.toNat b.toNat || (Nat.beq a.toNat b.toNat && charListLe as bs)

/-- Boolean lexicographic order on strings, by code point. -/
def strLe (a b : String) : Bool :=
  charListLe a.data b.data

/-- Inserts an element into a list sorted by a string key, keeping order. -/
def insertSorted (key : α → String) (x : α) : List α → List α
  | [] => [x]
  | y :: ys => if strLe (key x) (key y) then x :: y :: ys else y :: insertSorted key x ys

/-- Insertion sort by a string key, used for the alphabetical property order
of the emitted record declarations. -/
def sortByKey (key : α → String) (l : List α) : List α :=
  l.foldr (insertSorted key) []

/-- Rendered field line of one column. -/
def renderField (opts : SerializeOptions) (c : ColumnMetadata) : String :=
  "  " ++ renderFieldName opts c ++ ": " ++ renderFieldType c ++ ";\n"

/-- Rendered interface declaration of one table; fields are emitted in
alphabetical order of their rendered names. -/
def renderInterface (opts : SerializeOptions) (t : TableMetadata) : String :=
  "export interface " ++ interfaceName opts t ++ " \x7b\n"
    ++ strConcat ((sortByKey (renderFieldName opts) t.columns).map (renderField opts))
    ++ "\x7d\n"

/-- Rendered row of the aggregate table map. -/
def renderDBRow (opts : SerializeOptions) (t : TableMetadata) : String :=
  "  " ++ t.name ++ ": " ++ interfaceName opts t ++ ";\n"

/-- Rendered aggregate declaration mapping table names to record types, rows
in alphabetical table-name order. -/
def renderDBDecl (opts : SerializeOptions) (db : DatabaseMetadata) : String :=
  "export interface DB \x7b\n"
    ++ strConcat ((sortByKey (fun t => t.name) db.tables).map (renderDBRow opts))
    ++ "\x7d\n"

/-- Fixed header comment of every generated file. -/
def headerText : String :=
  "/**\n * This file was generated by kysely-codegen.\n * Please do not edit it manually.\n */\n"

/-- Helper type declaration for generated columns. -/
def generatedHelperText : String :=
  "export type Generated<T> = T extends ColumnType<infer S, infer I, infer U>\n"
    ++ "  ? ColumnType<S, I | undefined, U>\n"
    ++ "  : ColumnType<T, T | undefined, T>;\n"

/-- Import line emitted when the generated marker construct is used. -/
def importText : String :=
  "import \x7b ColumnType \x7d from \"kysely\";\n"

/-- Whether any column of the database uses the generated marker, which
decides whether the import and helper declarations are emitted. -/
def usesGenerated (db : DatabaseMetadata) : Bool :=
  db.tables.any (fun t => t.columns.any isGeneratedColumn)

/-- Modelled from the spec: `serialize(DatabaseMetadata, options)` of
section 4.6 (the serializer module is absent from the snapshot).  Emits the
fixed header, the import line only when used, the enum section in
registration order, the generated helper when used, one interface per table
in declaration order and the aggregate map, with one blank line between
sections. -/
def serialize (db : DatabaseMetadata) (opts : SerializeOptions) : String :=
  let sections : List String :=
    [headerText]
      ++ (if usesGenerated db then [importText] else [])
      ++ db.enums.entries.map renderEnumDecl
      ++ (if usesGenerated db then [generatedHelperText] else [])
      ++ db.tables.map (renderInterface opts)
      ++ [renderDBDecl opts db]
  intercalateStr "\n" sections ++ "\n"

/-! ### CLI option parsing (deprecated flags) -/

/-- Deprecated CLI flags paired with their replacements. -/
def deprecatedFlags : List (String × String) :=
  [("schema", "default-schema"), ("singular", "singularize")]

/-- Error value modelling the `RangeError` the CLI raises on a deprecated
flag; it carries the flag and its replacement. -/
structure RangeError where
  flag : String
  replacement : String
deriving DecidableEq

/-- Deprecation message of a `RangeError`, naming the deprecated flag and
its replacement. -/
def RangeError.message (e : RangeError) : String :=
  "The flag " ++ e.flag ++ " has been deprecated. Use "
    ++ e.replacement ++ " instead."

/-- Flag name of one CLI argument: the leading dashes and any `=value` part
are stripped. -/
def flagName (arg : String) : String :=
  let bare := if strStartsWith arg "--" then String.mk (arg.data.drop 2) else arg
  String.mk (bare.data.takeWhile (fun c => c ≠ '='))

/-- Modelled from the spec: the deprecated-flag rejection of
`Cli.parseOptions` (the CLI module is absent from the snapshot; behaviour
taken from the expectations in `src/cli/cli.test.ts`).  An argument whose
flag name is deprecated aborts parsing with a `RangeError` naming the flag
and its replacement; otherwise the argument list is accepted. -/
def parseOptions (args : List String) : Except RangeError (List String) :=
  match args.find? (fun a => (deprecatedFlags.lookup (flagName a)).isSome) with
  | some a =>
    match deprecatedFlags.lookup (flagName a) with
    | some repl => .error ⟨flagName a, repl⟩
    | none => .ok args
  | none => .ok args

/-- Substring containment over strings, used to state what the generated
declaration text contains. -/
def strContains (s sub : String) : Prop :=
  ∃ a b : String, s = a ++ sub ++ b

/-! ### The bacchi scenario of the CLI test -/

/-- Enum collection of the scenario: the `cli.status` postgres enum type with
labels `CONFIRMED`, `UNCONFIRMED` in catalog declaration order. -/
def scenarioEnums : EnumCollection :=
  ⟨[("status", ["CONFIRMED", "UNCONFIRMED"])]⟩

/-- Column context of the scenario: postgres defaults with the `status` enum
known. -/
def scenarioCtx : ColumnContext :=
  ⟨.number, .string, ["status"]⟩

/-- Metadata of the scenario database: schema `cli`, table `bacchi` with the
nullable enum column `status` and the auto-incrementing serial primary key
`bacchus_id` (an `int4` with a sequence default), in catalog column order. -/
def scenarioDb : DatabaseMetadata :=
  ⟨[⟨"cli", "bacchi",
     [⟨"status", typeMap .postgres "status" scenarioCtx, true, false, false⟩,
      ⟨"bacchus_id", typeMap .postgres "int4" scenarioCtx, false, true, true⟩]⟩],
   scenarioEnums⟩

/-- Serializer options of the scenario: camel-casing enabled by the
`--camel-case` argv override and the bacchus singularization rule. -/
def scenarioOpts : SerializeOptions :=
  ⟨true, [ruleBacchus]⟩

/-! ## Theorems settling the claims -/

set_option maxRecDepth 20000 in
/-- C1: running the pipeline on the bacchi scenario (enum column `status`
with labels `CONFIRMED`, `UNCONFIRMED`; auto-incrementing primary key
`bacchus_id`; the bacchus singularization rule; camel-casing enabled)
produces declaration text containing an interface `Bacchus` with fields
`bacchusId: Generated<number>` and `status: Status | null`, and an enum
`Status` with members `Confirmed = "CONFIRMED"` and
`Unconfirmed = "UNCONFIRMED"`. -/
theorem serialize_bacchi_scenario :
    strContains (serialize scenarioDb scenarioOpts)
      "export interface Bacchus \x7b\n  bacchusId: Generated<number>;\n  status: Status | null;\n\x7d"
    ∧ strContains (serialize scenarioDb scenarioOpts)
      "export enum Status \x7b\n  Confirmed = \"CONFIRMED\",\n  Unconfirmed = \"UNCONFIRMED\",\n\x7d" := by
  constructor
  · exact ⟨"/**\n * This file was generated by kysely-codegen.\n * Please do not edit it manually.\n */\n\nimport \x7b ColumnType \x7d from \"kysely\";\n\nexport enum Status \x7b\n  Confirmed = \"CONFIRMED\",\n  Unconfirmed = \"UNCONFIRMED\",\n\x7d\n\nexport type Generated<T> = T extends ColumnType<infer S, infer I, infer U>\n  ? ColumnType<S, I | undefined, U>\n  : ColumnType<T, T | undefined, T>;\n\n",
      "\n\nexport interface DB \x7b\n  bacchi: Bacchus;\n\x7d\n\n", by decide⟩
  · exact ⟨"/**\n * This file was generated by kysely-codegen.\n * Please do not edit it manually.\n */\n\nimport \x7b ColumnType \x7d from \"kysely\";\n\n",
      "\n\nexport type Generated<T> = T extends ColumnType<infer S, infer I, infer U>\n  ? ColumnType<S, I | undefined, U>\n  : ColumnType<T, T | undefined, T>;\n\nexport interface Bacchus \x7b\n  bacchusId: Generated<number>;\n  status: Status | null;\n\x7d\n\nexport interface DB \x7b\n  bacchi: Bacchus;\n\x7d\n\n", by decide⟩

/-- C3: generating, writing the output text, and verifying against the
just-written file always reports a match, for every schema snapshot and
option bundle. -/
theorem roundTrip_always_matches (db : DatabaseMetadata) (opts : SerializeOptions) :
    verify (serialize db opts) (serialize db opts) = .matched := by
  simp [verify]

/-- C4: serialize is deterministic — two invocations on identical inputs
produce byte-identical output text. -/
theorem serialize_deterministic (db₁ db₂ : DatabaseMetadata)
    (opts₁ opts₂ : SerializeOptions) (hdb : db₁ = db₂) (hopts : opts₁ = opts₂) :
    serialize db₁ opts₁ = serialize db₂ opts₂ := by
  rw [hdb, hopts]

/-- Witness for C4 at the scenario input. -/
theorem serialize_deterministic_witness :
    serialize scenarioDb scenarioOpts = serialize scenarioDb scenarioOpts :=
  serialize_deterministic scenarioDb scenarioDb scenarioOpts scenarioOpts rfl rfl

/-- Helper: dropping leading newlines distributes over an append whose first
part contains a non-newline character. -/
theorem dropNL_append (x y : List Char) (h : ∃ c ∈ x, c ≠ '\n') :
    dropNL (x ++ y) = dropNL x ++ y := by
  induction x with
  | nil =>
    obtain ⟨c, hc, _⟩ := h
    cases hc
  | cons c cs ih =>
    simp only [List.cons_append, dropNL]
    by_cases hc : c = '\n'
    · rw [if_pos hc, if_pos hc]
      apply ih
      rcases h with ⟨d, hd, hdn⟩
      rcases List.mem_cons.mp hd with rfl | hmem
      · exact absurd hc hdn
      · exact ⟨d, hmem, hdn⟩
    · rw [if_neg hc, if_neg hc]
      rfl

/-- Helper: the trailing-newline trim of an append whose second part has a
non-newline character trims only inside the second part. -/
theorem trim_append (a b : String) (h : ∃ c ∈ b.data, c ≠ '\n') :
    trimTrailingNewlines (a ++ b) = a ++ trimTrailingNewlines b := by
  apply String.ext
  simp only [trimTrailingNewlines, String.data_append, List.reverse_append]
  rw [dropNL_append]
  · simp
  · rcases h with ⟨c, hc, hcn⟩
    exact ⟨c, List.mem_reverse.mpr hc, hcn⟩

/-- C2: `verify` reports a match exactly when the two texts agree after the
trailing-newline normalization; and changing one enum label string inside an
output file (the surrounding text unchanged, the file not all newlines after
the label) makes a verify run against it report a mismatch. -/
theorem verify_contract :
    (∀ g f, verify g f = .matched ↔
      trimTrailingNewlines g = trimTrailingNewlines f) ∧
    (∀ pre lab lab' post : String, lab ≠ lab' → (∃ c ∈ post.data, c ≠ '\n') →
      verify (pre ++ lab ++ post) (pre ++ lab' ++ post) = .mismatch) := by
  constructor
  · intro g f
    by_cases h : trimTrailingNewlines g = trimTrailingNewlines f
    · simp [verify, h]
    · simp [verify, h]
  · intro pre lab lab' post hne hpost
    have h1 := trim_append (pre ++ lab) post hpost
    have h2 := trim_append (pre ++ lab') post hpost
    have hneq : pre ++ lab ++ trimTrailingNewlines post ≠
        pre ++ lab' ++ trimTrailingNewlines post := by
      intro heq
      apply hne
      have hd := congrArg String.data heq
      simp only [String.data_append, List.append_assoc] at hd
      exact String.ext
        (List.append_cancel_right (List.append_cancel_left hd))
    unfold verify
    rw [h1, h2, if_neg hneq]

/-- Witness for C2: corrupting the label `CONFIRMED` to `INVALID` inside the
scenario output file is reported as a mismatch. -/
theorem verify_contract_witness :
    verify
      ("/**\n * This file was generated by kysely-codegen.\n * Please do not edit it manually.\n */\n\nimport \x7b ColumnType \x7d from \"kysely\";\n\nexport enum Status \x7b\n  Confirmed = \""
        ++ "CONFIRMED"
        ++ "\",\n  Unconfirmed = \"UNCONFIRMED\",\n\x7d\n\nexport type Generated<T> = T extends ColumnType<infer S, infer I, infer U>\n  ? ColumnType<S, I | undefined, U>\n  : ColumnType<T, T | undefined, T>;\n\nexport interface Bacchus \x7b\n  bacchusId: Generated<number>;\n  status: Status | null;\n\x7d\n\nexport interface DB \x7b\n  bacchi: Bacchus;\n\x7d\n\n")
      ("/**\n * This file was generated by kysely-codegen.\n * Please do not edit it manually.\n */\n\nimport \x7b ColumnType \x7d from \"kysely\";\n\nexport enum Status \x7b\n  Confirmed = \""
        ++ "INVALID"
        ++ "\",\n  Unconfirmed = \"UNCONFIRMED\",\n\x7d\n\nexport type Generated<T> = T extends ColumnType<infer S, infer I, infer U>\n  ? ColumnType<S, I | undefined, U>\n  : ColumnType<T, T | undefined, T>;\n\nexport interface Bacchus \x7b\n  bacchusId: Generated<number>;\n  status: Status | null;\n\x7d\n\nexport interface DB \x7b\n  bacchi: Bacchus;\n\x7d\n\n")
      = .mismatch :=
  verify_contract.2 _ "CONFIRMED" "INVALID" _ (by decide) (by decide)

/-- C5: a configured exclude pattern matching the schema-qualified name
rejects the table regardless of include rules; otherwise a configured
include pattern alone decides acceptance; otherwise acceptance is exactly
case-sensitive membership of the schema in the default-schema list, and
with no list configured all schemas are accepted. -/
theorem tableMatches_spec (cfg : MatchConfig) (schema table : String) :
    (∀ p, cfg.excludePattern = some p →
      globMatch p.data (qualifiedName schema table).data = true →
      tableMatches cfg schema table = false) ∧
    ((cfg.excludePattern = none ∨
        ∃ p, cfg.excludePattern = some p ∧
          globMatch p.data (qualifiedName schema table).data = false) →
      (∀ p, cfg.includePattern = some p →
        tableMatches cfg schema table =
          globMatch p.data (qualifiedName schema table).data) ∧
      (cfg.includePattern = none →
        (∀ ds, cfg.defaultSchemas = some ds →
          tableMatches cfg schema table = ds.contains schema) ∧
        (cfg.defaultSchemas = none → tableMatches cfg schema table = true))) := by
  constructor
  · intro p hp hm
    simp [tableMatches, hp, hm]
  · intro hexc
    have hbase : tableMatches cfg schema table = matchesBase cfg schema table := by
      rcases hexc with he | ⟨q, hq, hqm⟩
      · simp [tableMatches, he]
      · simp [tableMatches, hq, hqm]
    refine ⟨?_, ?_⟩
    · intro p hp
      rw [hbase]
      simp [matchesBase, hp]
    · intro hinc
      refine ⟨?_, ?_⟩
      · intro ds hds
        rw [hbase]
        simp [matchesBase, hinc, hds]
      · intro hds
        rw [hbase]
        simp [matchesBase, hinc, hds]

/-- Witness for C5: a matching exclude rejects even an included table; an
include pattern decides; default-schema membership decides; no configured
defaults accepts every schema. -/
theorem tableMatches_spec_witness :
    tableMatches ⟨some "cli.*", some "cli.bacchi", none⟩ "cli" "bacchi" = false ∧
    tableMatches ⟨some "cli.*", none, none⟩ "cli" "bacchi" = true ∧
    tableMatches ⟨none, none, some ["public"]⟩ "cli" "bacchi" = false ∧
    tableMatches ⟨none, none, none⟩ "cli" "bacchi" = true :=
  ⟨(tableMatches_spec ⟨some "cli.*", some "cli.bacchi", none⟩ "cli" "bacchi").1
      "cli.bacchi" rfl (by decide),
   Eq.trans
     (((tableMatches_spec ⟨some "cli.*", none, none⟩ "cli" "bacchi").2
        (Or.inl rfl)).1 "cli.*" rfl)
     (by decide),
   Eq.trans
     ((((tableMatches_spec ⟨none, none, some ["public"]⟩ "cli" "bacchi").2
        (Or.inl rfl)).2 rfl).1 ["public"] rfl)
     (by decide),
   (((tableMatches_spec ⟨none, none, none⟩ "cli" "bacchi").2
      (Or.inl rfl)).2 rfl).2 rfl⟩

/-- C6: registering an identity already present with the stored label
sequence returns the existing handle and leaves the collection unchanged;
registering it with a different label sequence signals a
`SchemaInconsistencyError`. -/
theorem register_contract (c : EnumCollection) (identity : String)
    (labels labels' : List String) :
    (c.entries.find? (fun e => e.1 == identity) = some (identity, labels) →
      c.register identity labels = .ok (identity, c)) ∧
    (c.entries.find? (fun e => e.1 == identity) = some (identity, labels) →
      labels' ≠ labels →
      c.register identity labels' = .error ⟨identity⟩) := by
  constructor
  · intro h
    simp [EnumCollection.register, h]
  · intro h hne
    simp [EnumCollection.register, h]
    exact fun heq => hne heq.symm

/-- Witness for C6 at the scenario enum: consistent re-registration is a
no-op returning the existing handle, conflicting re-registration errors. -/
theorem register_contract_witness :
    EnumCollection.register ⟨[("status", ["CONFIRMED", "UNCONFIRMED"])]⟩
      "status" ["CONFIRMED", "UNCONFIRMED"]
      = .ok ("status", ⟨[("status", ["CONFIRMED", "UNCONFIRMED"])]⟩) ∧
    EnumCollection.register ⟨[("status", ["CONFIRMED", "UNCONFIRMED"])]⟩
      "status" ["CONFIRMED", "INVALID"]
      = .error ⟨"status"⟩ :=
  ⟨(register_contract ⟨[("status", ["CONFIRMED", "UNCONFIRMED"])]⟩ "status"
      ["CONFIRMED", "UNCONFIRMED"] []).1 (by decide),
   (register_contract ⟨[("status", ["CONFIRMED", "UNCONFIRMED"])]⟩ "status"
      ["CONFIRMED", "UNCONFIRMED"] ["CONFIRMED", "INVALID"]).2
      (by decide) (by decide)⟩

/-- C7: the type mapper is total by construction (it is a Lean function into
`DataType`), and a raw type with no dialect mapping — not an enum, not in
the numeric or date families, absent from the dialect scalar table — yields
`unknown(rawName)` rather than aborting. -/
theorem typeMap_total (d : DialectId) (raw : String) (ctx : ColumnContext)
    (henum : raw ∉ ctx.enums)
    (hnum : raw ∉ numericFamily)
    (hdate : raw ∉ dateFamily)
    (hlookup : (scalarTableFor d).lookup raw = none) :
    typeMap d raw ctx = .unknown raw := by
  simp [typeMap, henum, hnum, hdate, hlookup]

/-- Witness for C7: the unmapped postgres raw type `geometry` degrades to
`unknown`. -/
theorem typeMap_total_witness :
    typeMap .postgres "geometry" ⟨.number, .string, []⟩ = .unknown "geometry" :=
  typeMap_total .postgres "geometry" ⟨.number, .string, []⟩
    (by decide) (by decide) (by decide) (by decide)

/-- C9: a wide-precision numeric raw type maps to the union of number and
string under the `number-or-string` numeric-parser mode and to a plain
number under the `number` mode. -/
theorem typeMap_numeric_modes (d : DialectId) (raw : String)
    (ctx : ColumnContext)
    (hnum : raw ∈ numericFamily)
    (henum : raw ∉ ctx.enums) :
    (ctx.numericParser = .numberOrString →
      typeMap d raw ctx = .union (.scalar .number) (.scalar .string)) ∧
    (ctx.numericParser = .number → typeMap d raw ctx = .scalar .number) := by
  constructor <;> intro hmode <;> simp [typeMap, henum, hnum, hmode]

/-- Witness for C9 at the postgres `numeric` type under both modes. -/
theorem typeMap_numeric_modes_witness :
    typeMap .postgres "numeric" ⟨.numberOrString, .string, []⟩
      = .union (.scalar .number) (.scalar .string) ∧
    typeMap .postgres "numeric" ⟨.number, .string, []⟩ = .scalar .number :=
  ⟨(typeMap_numeric_modes .postgres "numeric" ⟨.numberOrString, .string, []⟩
      (by decide) (by decide)).1 rfl,
   (typeMap_numeric_modes .postgres "numeric" ⟨.number, .string, []⟩
      (by decide) (by decide)).2 rfl⟩

/-- C8: singularization tests the rules in declared order and the first
matching rule's replacement wins — a matching head rule decides, a
non-matching head rule defers to the rest, a name matching no rule is
returned unchanged; with the rule list
`[/s$/ -> "", /(bacch)(?:us|i)$/i -> "$1us"]` the name `bacchi` (which the
first rule does not match) becomes `bacchus`, while on `bacchus` the
declared order — not specificity — makes `/s$/` win, and reversing the
order changes the outcome. -/
theorem singularize_contract :
    (∀ (r : SingularizationRule) (rs : List SingularizationRule)
        (name out : String),
      (r.apply name = some out → singularize (r :: rs) name = out) ∧
      (r.apply name = none → singularize (r :: rs) name = singularize rs name)) ∧
    (∀ (rules : List SingularizationRule) (name : String),
      (∀ r ∈ rules, r.apply name = none) → singularize rules name = name) ∧
    singularize [ruleDropS, ruleBacchus] "bacchi" = "bacchus" ∧
    singularize [ruleDropS, ruleBacchus] "bacchus" = "bacchu" ∧
    singularize [ruleBacchus, ruleDropS] "bacchus" = "bacchus" := by
  refine ⟨?_, ?_, by decide, by decide, by decide⟩
  · intro r rs name out
    constructor <;> intro h <;> simp [singularize, h]
  · intro rules name h
    induction rules with
    | nil => rfl
    | cons r rs ih =>
      have hr := h r (List.mem_cons_self r rs)
      simp [singularize, hr]
      exact ih (fun r' hr' => h r' (List.mem_cons_of_mem r hr'))

/-- Witness for C8: a matching head rule rewrites `books` to `book`, and a
name matching no rule is unchanged. -/
theorem singularize_contract_witness :
    singularize [ruleDropS] "books" = "book" ∧
    singularize [ruleBacchus] "user" = "user" :=
  ⟨(singularize_contract.1 ruleDropS [] "books" "book").1 (by decide),
   singularize_contract.2.1 [ruleBacchus] "user" (by decide)⟩

/-- C10: `parseOptions` rejects the deprecated flags `--schema` and
`--singular` with a `RangeError` carrying the deprecated flag and its
replacement (`default-schema` and `singularize` respectively), whose
rendered message names both, instead of parsing them as options. -/
theorem parseOptions_deprecated :
    parseOptions ["--schema"] = .error ⟨"schema", "default-schema"⟩ ∧
    parseOptions ["--singular"] = .error ⟨"singular", "singularize"⟩ ∧
    strContains (RangeError.message ⟨"schema", "default-schema"⟩) "schema" ∧
    strContains (RangeError.message ⟨"schema", "default-schema"⟩)
      "default-schema" ∧
    strContains (RangeError.message ⟨"singular", "singularize"⟩) "singular" ∧
    strContains (RangeError.message ⟨"singular", "singularize"⟩)
      "singularize" :=
  ⟨rfl, rfl,
   ⟨"The flag ", " has been deprecated. Use default-schema instead.",
     by decide⟩,
   ⟨"The flag schema has been deprecated. Use ", " instead.", by decide⟩,
   ⟨"The flag ", " has been deprecated. Use singularize instead.", by decide⟩,
   ⟨"The flag singular has been deprecated. Use ", " instead.", by decide⟩⟩

end KCG
